import Mathlib

/-!
Shallow embedding of the keycloak-admin-client wrapper modules:
  - user-storage components  (src/unnamed/part_000)
  - identity-provider instances (src/unnamed/part_001)
  - realm authentication flows (src/lib/realm-authentication-flows.js)

Every exported operation in the source has the shape

    function op(client) {
      return function op(args...) {
        return new Promise((resolve, reject) => {
          const req = { url, auth: { bearer: privates.get(client).accessToken }, ... };
          request(req, (err, resp, body) => {
            if (err) return reject(err);
            if (resp.statusCode !== EXPECTED) return reject(body);
            return resolve(body);   // create: resolve(find(realm, { id: uid }))
          });
        });
      };
    }

We embed this as two pure functions per operation:
  - a request builder, evaluated at call time.  It receives the client
    context (`baseUrl`) and the private-map entry (`accessToken`) as they
    stand at the moment of the call, because the source reads
    `privates.get(client).accessToken` inside the inner function on every
    invocation, not when the operation was constructed.
  - a response handler mapping the `(err, resp, body)` callback arguments
    to the promise outcome.

JavaScript values appearing as caller-supplied options / entities / bodies
are modelled by `JsValue` with JS truthiness, property access and
template-literal stringification.
-/

/-- Model of a JavaScript value as used by the library: callers may pass
anything as options/entities, and response bodies are arbitrary decoded
JSON (or raw values). Numbers are modelled as integers; no code path in
the source depends on float behaviour. -/
inductive JsValue where
  | undef : JsValue
  | null : JsValue
  | bool : Bool → JsValue
  | num : Int → JsValue
  | str : String → JsValue
  | arr : List JsValue → JsValue
  | obj : List (String × JsValue) → JsValue

/-- JavaScript truthiness, as used by `options = options || {}`,
`if (options.id)`, and `if (err)` in the source. -/
def truthy : JsValue → Bool
  | .undef => false
  | .null => false
  | .bool b => b
  | .num n => n != 0
  | .str s => s != ""
  | .arr _ => true
  | .obj _ => true

/-- Property access `v.k`. On an object we look the key up; on any other
value the result is `undefined`. (In JS, access on `null`/`undefined`
throws, but every property access in the source is guarded by an
`x = x || {}` default or is on a transport-supplied object, so the
distinction is never reached.) -/
def getField (v : JsValue) (k : String) : JsValue :=
  match v with
  | .obj fs =>
    match fs.lookup k with
    | some w => w
    | none => .undef
  | _ => .undef

mutual

/-- JS `String(v)` as performed by template-literal interpolation
(used for `${options.id}`, `${userStorage.id}`, `${identityProvider.alias}`):
`undefined` prints as the literal string "undefined". -/
def jsToString : JsValue → String
  | .undef => "undefined"
  | .null => "null"
  | .bool true => "true"
  | .bool false => "false"
  | .num n => toString n
  | .str s => s
  | .arr xs => jsArrJoin xs
  | .obj _ => "[object Object]"

/-- JS `Array.prototype.toString`: elements joined with commas,
`null`/`undefined` elements printing as the empty string. -/
def jsArrJoin : List JsValue → String
  | [] => ""
  | [x] => jsElemToString x
  | x :: y :: xs => jsElemToString x ++ "," ++ jsArrJoin (y :: xs)

/-- Stringification of a single array element inside a join. -/
def jsElemToString : JsValue → String
  | .undef => ""
  | .null => ""
  | v => jsToString v

end

/-- The identifier extraction `location.replace(/.*\/(.*)$/, '$1')` from
both create implementations: the substring after the last '/' of the
header value, or the whole value when it contains no '/' (the regex then
fails to match and `replace` returns the string unchanged). Header values
contain no newline characters, so the dot-does-not-match-newline subtlety
of the regex never arises. -/
def lastSegment (s : String) : String :=
  String.mk ((s.data.reverse.takeWhile (fun c => c != '/')).reverse)

/-- The client object as seen by these modules: they only read
`client.baseUrl` (and hand `client` to the private map). -/
structure ClientCtx where
  baseUrl : String

/-- The private-map entry `privates.get(client)` at the moment of a call.
The map is module-level mutable state, mutated externally on token
refresh; each request builder below receives the entry current at call
time, mirroring that the source reads it inside the per-call closure. -/
structure PrivateState where
  accessToken : String

/-- The response object handed to the request callback: the source reads
`resp.statusCode` and `resp.headers.location`. -/
structure Resp where
  statusCode : Nat
  headers : JsValue

/-- The three arguments `(err, resp, body)` of a completed `request`
callback. A transport failure is a truthy `err`; a completed HTTP
exchange has a falsy `err` and carries status/headers/body. -/
structure CallbackArgs where
  err : JsValue
  resp : Resp
  body : JsValue

/-- Settlement of the promise returned by an operation. `threw` marks a
synchronous exception escaping the request callback (never a promise
rejection); only create's identifier extraction can produce it. -/
inductive Outcome where
  | resolved : JsValue → Outcome
  | rejected : JsValue → Outcome
  | threw : Outcome

/-- The request descriptor passed to `request(...)`. Field defaults match
the JS object-literal semantics: a key the source does not write is
absent (`json` defaults to false, `method` to GET, `qs` and `body` to
absent). `bearer` is the `auth: { bearer: ... }` credential. -/
structure HttpRequest where
  url : String
  bearer : String
  json : Bool := false
  method : String := "GET"
  qs : Option JsValue := none
  body : Option JsValue := none

/-- What create's first callback does: settle directly, throw during
identifier extraction, or issue the given follow-up find request and
adopt its result. -/
inductive CreateStep where
  | done : Outcome → CreateStep
  | throwTypeError : CreateStep
  | followUp : HttpRequest → CreateStep

namespace UserStorage

/-- Request built by user-storage `find` (part_000 lines 36-52): defaults
`options` to `{}`, then targets the single-component URL when
`options.id` is truthy (no query string) and otherwise the collection
URL with the hardcoded parent/type query and `req.qs = options`. -/
def find.request (client : ClientCtx) (priv : PrivateState) (realm : String)
    (options : JsValue) : HttpRequest :=
  let opts := if truthy options then options else .obj []
  if truthy (getField opts "id") then
    { url := client.baseUrl ++ "/admin/realms/" ++ realm ++ "/components/"
        ++ jsToString (getField opts "id")
      bearer := priv.accessToken
      json := true }
  else
    { url := client.baseUrl ++ "/admin/realms/" ++ realm
        ++ "/components?parent=" ++ realm
        ++ "&type=org.keycloak.storage.UserStorageProvider"
      bearer := priv.accessToken
      json := true
      qs := some opts }

/-- Callback of user-storage `find` (part_000 lines 54-64): reject a
truthy err, reject the body on status other than 200, else resolve the
body. -/
def find.handle (cb : CallbackArgs) : Outcome :=
  if truthy cb.err then .rejected cb.err
  else if cb.resp.statusCode != 200 then .rejected cb.body
  else .resolved cb.body

/-- Request built by user-storage `create` (part_000 lines 83-94): POST
the entity to the components collection. -/
def create.request (client : ClientCtx) (priv : PrivateState) (realm : String)
    (userStorage : JsValue) : HttpRequest :=
  { url := client.baseUrl ++ "/admin/realms/" ++ realm ++ "/components"
    bearer := priv.accessToken
    body := some userStorage
    method := "POST"
    json := true }

/-- Callback of user-storage `create` (part_000 lines 96-114): reject a
truthy err, reject the body on status other than 201; otherwise extract
`uid` as the last path segment of `resp.headers.location` (a TypeError
if the header is not a string, since only strings have `.replace`) and
resolve with `find(realmName, { id: uid })`. -/
def create.step (client : ClientCtx) (priv : PrivateState) (realm : String)
    (cb : CallbackArgs) : CreateStep :=
  if truthy cb.err then .done (.rejected cb.err)
  else if cb.resp.statusCode != 201 then .done (.rejected cb.body)
  else
    match getField cb.resp.headers "location" with
    | .str loc =>
      .followUp (find.request client priv realm
        (.obj [("id", .str (lastSegment loc))]))
    | _ => .throwTypeError

/-- End-to-end outcome of user-storage `create`: the first callback
settles directly or throws, except on the follow-up path where the
promise adopts the result of the dependent `find`, whose callback
arguments are `cb2`. -/
def create.outcome (client : ClientCtx) (priv : PrivateState) (realm : String)
    (cb1 cb2 : CallbackArgs) : Outcome :=
  match create.step client priv realm cb1 with
  | .done o => o
  | .throwTypeError => .threw
  | .followUp _ => find.handle cb2

/-- Request built by user-storage `update` (part_000 lines 134-146):
defaults the entity to `{}`, then PUTs it to the URL whose last segment
is the template interpolation of `userStorage.id`. -/
def update.request (client : ClientCtx) (priv : PrivateState) (realm : String)
    (userStorage : JsValue) : HttpRequest :=
  let entity := if truthy userStorage then userStorage else .obj []
  { url := client.baseUrl ++ "/admin/realms/" ++ realm ++ "/components/"
      ++ jsToString (getField entity "id")
    bearer := priv.accessToken
    json := true
    method := "PUT"
    body := some entity }

/-- Callback of user-storage `update` (part_000 lines 148-159): reject a
truthy err, reject the body on status other than 204, else resolve the
body. -/
def update.handle (cb : CallbackArgs) : Outcome :=
  if truthy cb.err then .rejected cb.err
  else if cb.resp.statusCode != 204 then .rejected cb.body
  else .resolved cb.body

/-- Request built by user-storage `remove` (part_000 lines 178-187):
DELETE the identified component. Note the source request descriptor has
no `json` key. -/
def remove.request (client : ClientCtx) (priv : PrivateState) (realm : String)
    (id : String) : HttpRequest :=
  { url := client.baseUrl ++ "/admin/realms/" ++ realm ++ "/components/" ++ id
    bearer := priv.accessToken
    method := "DELETE" }

/-- Callback of user-storage `remove` (part_000 lines 189-200): reject a
truthy err, reject the body on status other than 204, else resolve the
body. -/
def remove.handle (cb : CallbackArgs) : Outcome :=
  if truthy cb.err then .rejected cb.err
  else if cb.resp.statusCode != 204 then .rejected cb.body
  else .resolved cb.body

/-- Request built by `triggerChangedUsersSync` (part_000 lines 205-214). -/
def triggerChangedUsersSync.request (client : ClientCtx) (priv : PrivateState)
    (realm : String) (id : String) : HttpRequest :=
  { url := client.baseUrl ++ "/admin/realms/" ++ realm ++ "/user-storage/"
      ++ id ++ "/sync?action=triggerChangedUsersSync"
    bearer := priv.accessToken
    json := true }

/-- Callback of `triggerChangedUsersSync` (part_000 lines 216-226). -/
def triggerChangedUsersSync.handle (cb : CallbackArgs) : Outcome :=
  if truthy cb.err then .rejected cb.err
  else if cb.resp.statusCode != 200 then .rejected cb.body
  else .resolved cb.body

/-- Request built by `triggerFullSync` (part_000 lines 231-240). -/
def triggerFullSync.request (client : ClientCtx) (priv : PrivateState)
    (realm : String) (id : String) : HttpRequest :=
  { url := client.baseUrl ++ "/admin/realms/" ++ realm ++ "/user-storage/"
      ++ id ++ "/sync?action=triggerFullSync"
    bearer := priv.accessToken
    json := true }

/-- Callback of `triggerFullSync` (part_000 lines 242-252). -/
def triggerFullSync.handle (cb : CallbackArgs) : Outcome :=
  if truthy cb.err then .rejected cb.err
  else if cb.resp.statusCode != 200 then .rejected cb.body
  else .resolved cb.body

/-- Request built by `removeImportedUsers` (part_000 lines 257-266). -/
def removeImportedUsers.request (client : ClientCtx) (priv : PrivateState)
    (realm : String) (id : String) : HttpRequest :=
  { url := client.baseUrl ++ "/admin/realms/" ++ realm ++ "/user-storage/"
      ++ id ++ "/remove-imported-users"
    bearer := priv.accessToken
    json := true }

/-- Callback of `removeImportedUsers` (part_000 lines 268-278). -/
def removeImportedUsers.handle (cb : CallbackArgs) : Outcome :=
  if truthy cb.err then .rejected cb.err
  else if cb.resp.statusCode != 200 then .rejected cb.body
  else .resolved cb.body

/-- Request built by `unlinkImportedUsers` (part_000 lines 283-292). -/
def unlinkImportedUsers.request (client : ClientCtx) (priv : PrivateState)
    (realm : String) (id : String) : HttpRequest :=
  { url := client.baseUrl ++ "/admin/realms/" ++ realm ++ "/user-storage/"
      ++ id ++ "/unlink-users"
    bearer := priv.accessToken
    json := true }

/-- Callback of `unlinkImportedUsers` (part_000 lines 294-304). -/
def unlinkImportedUsers.handle (cb : CallbackArgs) : Outcome :=
  if truthy cb.err then .rejected cb.err
  else if cb.resp.statusCode != 200 then .rejected cb.body
  else .resolved cb.body

end UserStorage

namespace IdentityProvider

/-- Request built by identity-provider `find` (part_001 lines 33-49):
defaults `options` to `{}`, then targets the single-instance URL when
`options.alias` is truthy (no query string) and otherwise the instances
collection URL with `req.qs = options`. -/
def find.request (client : ClientCtx) (priv : PrivateState) (realm : String)
    (options : JsValue) : HttpRequest :=
  let opts := if truthy options then options else .obj []
  if truthy (getField opts "alias") then
    { url := client.baseUrl ++ "/admin/realms/" ++ realm
        ++ "/identity-provider/instances/"
        ++ jsToString (getField opts "alias")
      bearer := priv.accessToken
      json := true }
  else
    { url := client.baseUrl ++ "/admin/realms/" ++ realm
        ++ "/identity-provider/instances"
      bearer := priv.accessToken
      json := true
      qs := some opts }

/-- Callback of identity-provider `find` (part_001 lines 51-61): reject a
truthy err, reject the body on status other than 200, else resolve the
body. -/
def find.handle (cb : CallbackArgs) : Outcome :=
  if truthy cb.err then .rejected cb.err
  else if cb.resp.statusCode != 200 then .rejected cb.body
  else .resolved cb.body

/-- Request built by identity-provider `create` (part_001 lines 80-91):
POST the entity to the instances collection. -/
def create.request (client : ClientCtx) (priv : PrivateState) (realm : String)
    (identityProvider : JsValue) : HttpRequest :=
  { url := client.baseUrl ++ "/admin/realms/" ++ realm
      ++ "/identity-provider/instances"
    bearer := priv.accessToken
    body := some identityProvider
    method := "POST"
    json := true }

/-- Callback of identity-provider `create` (part_001 lines 93-111):
reject a truthy err, reject the body on status other than 201; otherwise
extract `uid` as the last path segment of `resp.headers.location` (a
TypeError if the header is not a string) and resolve with
`find(realmName, \x7b alias: uid \x7d)`. -/
def create.step (client : ClientCtx) (priv : PrivateState) (realm : String)
    (cb : CallbackArgs) : CreateStep :=
  if truthy cb.err then .done (.rejected cb.err)
  else if cb.resp.statusCode != 201 then .done (.rejected cb.body)
  else
    match getField cb.resp.headers "location" with
    | .str loc =>
      .followUp (find.request client priv realm
        (.obj [("alias", .str (lastSegment loc))]))
    | _ => .throwTypeError

/-- End-to-end outcome of identity-provider `create`: analogous to the
user-storage version, adopting the dependent find's result on the
follow-up path. -/
def create.outcome (client : ClientCtx) (priv : PrivateState) (realm : String)
    (cb1 cb2 : CallbackArgs) : Outcome :=
  match create.step client priv realm cb1 with
  | .done o => o
  | .throwTypeError => .threw
  | .followUp _ => find.handle cb2

/-- Request built by identity-provider `update` (part_001 lines 131-143):
defaults the entity to `{}`, then PUTs it to the URL whose last segment
is the template interpolation of `identityProvider.alias`. -/
def update.request (client : ClientCtx) (priv : PrivateState) (realm : String)
    (identityProvider : JsValue) : HttpRequest :=
  let entity := if truthy identityProvider then identityProvider else .obj []
  { url := client.baseUrl ++ "/admin/realms/" ++ realm
      ++ "/identity-provider/instances/"
      ++ jsToString (getField entity "alias")
    bearer := priv.accessToken
    json := true
    method := "PUT"
    body := some entity }

/-- Callback of identity-provider `update` (part_001 lines 145-156):
reject a truthy err, reject the body on status other than 204, else
resolve the body. -/
def update.handle (cb : CallbackArgs) : Outcome :=
  if truthy cb.err then .rejected cb.err
  else if cb.resp.statusCode != 204 then .rejected cb.body
  else .resolved cb.body

/-- Request built by identity-provider `remove` (part_001 lines 175-184):
DELETE the identified instance. Note the source request descriptor has
no `json` key. -/
def remove.request (client : ClientCtx) (priv : PrivateState) (realm : String)
    (alias_ : String) : HttpRequest :=
  { url := client.baseUrl ++ "/admin/realms/" ++ realm
      ++ "/identity-provider/instances/" ++ alias_
    bearer := priv.accessToken
    method := "DELETE" }

/-- Callback of identity-provider `remove` (part_001 lines 186-197):
reject a truthy err, reject the body on status other than 204, else
resolve the body. -/
def remove.handle (cb : CallbackArgs) : Outcome :=
  if truthy cb.err then .rejected cb.err
  else if cb.resp.statusCode != 204 then .rejected cb.body
  else .resolved cb.body

/-- Request built by `exportConfiguration` (part_001 lines 216-225). -/
def exportConfiguration.request (client : ClientCtx) (priv : PrivateState)
    (realm : String) (alias_ : String) : HttpRequest :=
  { url := client.baseUrl ++ "/admin/realms/" ++ realm
      ++ "/identity-provider/instances/" ++ alias_ ++ "/export"
    bearer := priv.accessToken
    json := true }

/-- Callback of `exportConfiguration` (part_001 lines 227-237). -/
def exportConfiguration.handle (cb : CallbackArgs) : Outcome :=
  if truthy cb.err then .rejected cb.err
  else if cb.resp.statusCode != 200 then .rejected cb.body
  else .resolved cb.body

end IdentityProvider

namespace AuthenticationFlows

/-- Request built by authentication-flows `find`
(realm-authentication-flows.js lines 30-42): defaults `options` to `{}`,
always targets the executions URL for the given flow, and always
forwards `options` as the query string. -/
def find.request (client : ClientCtx) (priv : PrivateState) (realm : String)
    (flow : String) (options : JsValue) : HttpRequest :=
  let opts := if truthy options then options else .obj []
  { url := client.baseUrl ++ "/admin/realms/" ++ realm
      ++ "/authentication/flows/" ++ flow ++ "/executions"
    bearer := priv.accessToken
    json := true
    qs := some opts }

/-- Callback of authentication-flows `find`
(realm-authentication-flows.js lines 44-54): reject a truthy err, reject
the body on status other than 200, else resolve the body. -/
def find.handle (cb : CallbackArgs) : Outcome :=
  if truthy cb.err then .rejected cb.err
  else if cb.resp.statusCode != 200 then .rejected cb.body
  else .resolved cb.body

/-- Request built by authentication-flows `update`
(realm-authentication-flows.js lines 74-85): PUT the entity to the
executions URL for the given flow (no defaulting of the entity). -/
def update.request (client : ClientCtx) (priv : PrivateState) (realm : String)
    (flow : String) (authenticationFlow : JsValue) : HttpRequest :=
  { url := client.baseUrl ++ "/admin/realms/" ++ realm
      ++ "/authentication/flows/" ++ flow ++ "/executions"
    bearer := priv.accessToken
    json := true
    method := "PUT"
    body := some authenticationFlow }

/-- Callback of authentication-flows `update`
(realm-authentication-flows.js lines 87-98): reject a truthy err, reject
the body on status other than 204, else resolve the body. -/
def update.handle (cb : CallbackArgs) : Outcome :=
  if truthy cb.err then .rejected cb.err
  else if cb.resp.statusCode != 204 then .rejected cb.body
  else .resolved cb.body

end AuthenticationFlows

/-! Helper lemmas shared by the claim theorems. -/

/-- Interpolating `undefined` into a template literal yields the literal
string "undefined". -/
lemma jsToString_undef : jsToString JsValue.undef = "undefined" := by
  simp [jsToString]

/-- Interpolating a string into a template literal yields the string
itself. -/
lemma jsToString_str (s : String) : jsToString (JsValue.str s) = s := by
  simp [jsToString]

/-- A truthy property can only come from an object, and objects are
truthy; so `options.id` truthy implies `options` itself truthy (and hence
untouched by the `options = options || \x7b\x7d` defaulting). -/
lemma truthy_of_getField (v : JsValue) (k : String)
    (h : truthy (getField v k) = true) : truthy v = true := by
  cases v <;> simp_all [getField, truthy]

/-- Claim C2: for every operation in all three modules, when the HTTP
call completes (falsy err) but the response status code differs from the
operation's expected value (200 for find/triggers/export, 201 for
create's POST, 204 for update/remove), the promise rejects with exactly
the response body as returned by the server — no wrapping object, no
added context. For create this is the first callback settling as a
direct rejection of the body. -/
theorem c2_nonmatching_status_rejects_raw_body (cb : CallbackArgs)
    (hErr : truthy cb.err = false) :
    (cb.resp.statusCode ≠ 200 →
      UserStorage.find.handle cb = Outcome.rejected cb.body)
    ∧ (∀ client priv realm, cb.resp.statusCode ≠ 201 →
      UserStorage.create.step client priv realm cb
        = CreateStep.done (Outcome.rejected cb.body))
    ∧ (cb.resp.statusCode ≠ 204 →
      UserStorage.update.handle cb = Outcome.rejected cb.body)
    ∧ (cb.resp.statusCode ≠ 204 →
      UserStorage.remove.handle cb = Outcome.rejected cb.body)
    ∧ (cb.resp.statusCode ≠ 200 →
      UserStorage.triggerChangedUsersSync.handle cb = Outcome.rejected cb.body)
    ∧ (cb.resp.statusCode ≠ 200 →
      UserStorage.triggerFullSync.handle cb = Outcome.rejected cb.body)
    ∧ (cb.resp.statusCode ≠ 200 →
      UserStorage.removeImportedUsers.handle cb = Outcome.rejected cb.body)
    ∧ (cb.resp.statusCode ≠ 200 →
      UserStorage.unlinkImportedUsers.handle cb = Outcome.rejected cb.body)
    ∧ (cb.resp.statusCode ≠ 200 →
      IdentityProvider.find.handle cb = Outcome.rejected cb.body)
    ∧ (∀ client priv realm, cb.resp.statusCode ≠ 201 →
      IdentityProvider.create.step client priv realm cb
        = CreateStep.done (Outcome.rejected cb.body))
    ∧ (cb.resp.statusCode ≠ 204 →
      IdentityProvider.update.handle cb = Outcome.rejected cb.body)
    ∧ (cb.resp.statusCode ≠ 204 →
      IdentityProvider.remove.handle cb = Outcome.rejected cb.body)
    ∧ (cb.resp.statusCode ≠ 200 →
      IdentityProvider.exportConfiguration.handle cb = Outcome.rejected cb.body)
    ∧ (cb.resp.statusCode ≠ 200 →
      AuthenticationFlows.find.handle cb = Outcome.rejected cb.body)
    ∧ (cb.resp.statusCode ≠ 204 →
      AuthenticationFlows.update.handle cb = Outcome.rejected cb.body) := by
  refine ⟨?_, ?_, ?_, ?_, ?_, ?_, ?_, ?_, ?_, ?_, ?_, ?_, ?_, ?_, ?_⟩ <;>
    intros <;>
      simp_all [UserStorage.find.handle, UserStorage.create.step,
        UserStorage.update.handle, UserStorage.remove.handle,
        UserStorage.triggerChangedUsersSync.handle,
        UserStorage.triggerFullSync.handle,
        UserStorage.removeImportedUsers.handle,
        UserStorage.unlinkImportedUsers.handle,
        IdentityProvider.find.handle, IdentityProvider.create.step,
        IdentityProvider.update.handle, IdentityProvider.remove.handle,
        IdentityProvider.exportConfiguration.handle,
        AuthenticationFlows.find.handle, AuthenticationFlows.update.handle]

/-- Witness for C2: a completed exchange with status 400 and body
`"invalid"` makes user-storage find reject with exactly that body, and
identity-provider update likewise. -/
theorem c2_nonmatching_status_rejects_raw_body_witness :
    UserStorage.find.handle
      ⟨JsValue.null, ⟨400, JsValue.obj []⟩, JsValue.str "invalid"⟩
      = Outcome.rejected (JsValue.str "invalid")
    ∧ IdentityProvider.update.handle
      ⟨JsValue.null, ⟨400, JsValue.obj []⟩, JsValue.str "invalid"⟩
      = Outcome.rejected (JsValue.str "invalid") :=
  ⟨(c2_nonmatching_status_rejects_raw_body
      ⟨JsValue.null, ⟨400, JsValue.obj []⟩, JsValue.str "invalid"⟩ rfl).1
      (by decide),
   (c2_nonmatching_status_rejects_raw_body
      ⟨JsValue.null, ⟨400, JsValue.obj []⟩, JsValue.str "invalid"⟩ rfl).2.2.2.2.2.2.2.2.2.2.1
      (by decide)⟩

/-- Claim C5: for every update (all three modules) and remove
(user-storage and identity-provider) call that completes, the promise
resolves with the possibly empty response body exactly when the status
is 204, and rejects with the body for every other status code —
including 200. -/
theorem c5_update_remove_resolve_only_on_204 (cb : CallbackArgs)
    (hErr : truthy cb.err = false) :
    (cb.resp.statusCode = 204 →
      UserStorage.update.handle cb = Outcome.resolved cb.body
      ∧ UserStorage.remove.handle cb = Outcome.resolved cb.body
      ∧ IdentityProvider.update.handle cb = Outcome.resolved cb.body
      ∧ IdentityProvider.remove.handle cb = Outcome.resolved cb.body
      ∧ AuthenticationFlows.update.handle cb = Outcome.resolved cb.body)
    ∧ (cb.resp.statusCode ≠ 204 →
      UserStorage.update.handle cb = Outcome.rejected cb.body
      ∧ UserStorage.remove.handle cb = Outcome.rejected cb.body
      ∧ IdentityProvider.update.handle cb = Outcome.rejected cb.body
      ∧ IdentityProvider.remove.handle cb = Outcome.rejected cb.body
      ∧ AuthenticationFlows.update.handle cb = Outcome.rejected cb.body) := by
  constructor <;>
    · intro h
      refine ⟨?_, ?_, ?_, ?_, ?_⟩ <;>
        simp_all [UserStorage.update.handle, UserStorage.remove.handle,
          IdentityProvider.update.handle, IdentityProvider.remove.handle,
          AuthenticationFlows.update.handle]

/-- Witness for C5: at status 204 user-storage update resolves with the
(empty) body, and at status 200 it rejects with the body. -/
theorem c5_update_remove_resolve_only_on_204_witness :
    UserStorage.update.handle ⟨JsValue.null, ⟨204, JsValue.obj []⟩, JsValue.str ""⟩
      = Outcome.resolved (JsValue.str "")
    ∧ UserStorage.update.handle ⟨JsValue.null, ⟨200, JsValue.obj []⟩, JsValue.obj []⟩
      = Outcome.rejected (JsValue.obj []) :=
  ⟨((c5_update_remove_resolve_only_on_204
      ⟨JsValue.null, ⟨204, JsValue.obj []⟩, JsValue.str ""⟩ rfl).1 rfl).1,
   ((c5_update_remove_resolve_only_on_204
      ⟨JsValue.null, ⟨200, JsValue.obj []⟩, JsValue.obj []⟩ rfl).2 (by decide)).1⟩

/-- Claim C8: for every operation in all three modules, when the
transport fails (truthy err), the promise rejects with the transport
error itself, unmodified; the response body is never consulted — the
rejection value is `cb.err` for every body whatsoever, as the body does
not occur in the result. -/
theorem c8_transport_error_propagated (cb : CallbackArgs)
    (hErr : truthy cb.err = true) :
    UserStorage.find.handle cb = Outcome.rejected cb.err
    ∧ (∀ client priv realm, UserStorage.create.step client priv realm cb
        = CreateStep.done (Outcome.rejected cb.err))
    ∧ UserStorage.update.handle cb = Outcome.rejected cb.err
    ∧ UserStorage.remove.handle cb = Outcome.rejected cb.err
    ∧ UserStorage.triggerChangedUsersSync.handle cb = Outcome.rejected cb.err
    ∧ UserStorage.triggerFullSync.handle cb = Outcome.rejected cb.err
    ∧ UserStorage.removeImportedUsers.handle cb = Outcome.rejected cb.err
    ∧ UserStorage.unlinkImportedUsers.handle cb = Outcome.rejected cb.err
    ∧ IdentityProvider.find.handle cb = Outcome.rejected cb.err
    ∧ (∀ client priv realm, IdentityProvider.create.step client priv realm cb
        = CreateStep.done (Outcome.rejected cb.err))
    ∧ IdentityProvider.update.handle cb = Outcome.rejected cb.err
    ∧ IdentityProvider.remove.handle cb = Outcome.rejected cb.err
    ∧ IdentityProvider.exportConfiguration.handle cb = Outcome.rejected cb.err
    ∧ AuthenticationFlows.find.handle cb = Outcome.rejected cb.err
    ∧ AuthenticationFlows.update.handle cb = Outcome.rejected cb.err := by
  refine ⟨?_, ?_, ?_, ?_, ?_, ?_, ?_, ?_, ?_, ?_, ?_, ?_, ?_, ?_, ?_⟩ <;>
    intros <;>
      simp_all [UserStorage.find.handle, UserStorage.create.step,
        UserStorage.update.handle, UserStorage.remove.handle,
        UserStorage.triggerChangedUsersSync.handle,
        UserStorage.triggerFullSync.handle,
        UserStorage.removeImportedUsers.handle,
        UserStorage.unlinkImportedUsers.handle,
        IdentityProvider.find.handle, IdentityProvider.create.step,
        IdentityProvider.update.handle, IdentityProvider.remove.handle,
        IdentityProvider.exportConfiguration.handle,
        AuthenticationFlows.find.handle, AuthenticationFlows.update.handle]

/-- Witness for C8: a transport error (truthy err object) with a 200
response attached still rejects user-storage find with the error itself,
not the body. -/
theorem c8_transport_error_propagated_witness :
    UserStorage.find.handle
      ⟨JsValue.str "ECONNREFUSED", ⟨200, JsValue.obj []⟩, JsValue.str "body"⟩
      = Outcome.rejected (JsValue.str "ECONNREFUSED") :=
  (c8_transport_error_propagated
    ⟨JsValue.str "ECONNREFUSED", ⟨200, JsValue.obj []⟩, JsValue.str "body"⟩
    rfl).1

/-- Claim C1: for both create operations, a 201 POST response makes the
first callback extract the identifier as the final path segment of the
Location header and issue a follow-up find against the same realm with
that identifier as options.id (user-storage) resp. options.alias
(identity-provider); the promise then settles exactly as that find does
— the POST response body `b` is universally quantified and absent from
the result, so create never resolves with the POST body itself. -/
theorem c1_create_resolves_with_readback (client : ClientCtx)
    (priv : PrivateState) (realm : String) (e hdrs b : JsValue) (loc : String)
    (hErr : truthy e = false)
    (hLoc : getField hdrs "location" = JsValue.str loc) :
    (UserStorage.create.step client priv realm ⟨e, ⟨201, hdrs⟩, b⟩
      = CreateStep.followUp (UserStorage.find.request client priv realm
          (JsValue.obj [("id", JsValue.str (lastSegment loc))]))
     ∧ ∀ cb2, UserStorage.create.outcome client priv realm ⟨e, ⟨201, hdrs⟩, b⟩ cb2
        = UserStorage.find.handle cb2)
    ∧ (IdentityProvider.create.step client priv realm ⟨e, ⟨201, hdrs⟩, b⟩
      = CreateStep.followUp (IdentityProvider.find.request client priv realm
          (JsValue.obj [("alias", JsValue.str (lastSegment loc))]))
     ∧ ∀ cb2, IdentityProvider.create.outcome client priv realm
        ⟨e, ⟨201, hdrs⟩, b⟩ cb2 = IdentityProvider.find.handle cb2) := by
  refine ⟨⟨?_, ?_⟩, ⟨?_, ?_⟩⟩
  · simp [UserStorage.create.step, hErr, hLoc]
  · intro cb2
    simp [UserStorage.create.outcome, UserStorage.create.step, hErr, hLoc]
  · simp [IdentityProvider.create.step, hErr, hLoc]
  · intro cb2
    simp [IdentityProvider.create.outcome, IdentityProvider.create.step,
      hErr, hLoc]

/-- Witness for C1: a 201 POST response whose Location header ends in
`/abc-123` makes user-storage create adopt the follow-up find's result
on a concrete second response, and identity-provider create likewise. -/
theorem c1_create_resolves_with_readback_witness :
    UserStorage.create.outcome ⟨"http://kc"⟩ ⟨"tok"⟩ "master"
      ⟨JsValue.null,
        ⟨201, JsValue.obj [("location",
          JsValue.str "http://kc/auth/admin/realms/master/components/abc-123")]⟩,
        JsValue.null⟩
      ⟨JsValue.null, ⟨200, JsValue.obj []⟩, JsValue.obj [("id", JsValue.str "abc-123")]⟩
      = UserStorage.find.handle
        ⟨JsValue.null, ⟨200, JsValue.obj []⟩, JsValue.obj [("id", JsValue.str "abc-123")]⟩
    ∧ IdentityProvider.create.outcome ⟨"http://kc"⟩ ⟨"tok"⟩ "master"
      ⟨JsValue.null,
        ⟨201, JsValue.obj [("location",
          JsValue.str "http://kc/auth/admin/realms/master/components/abc-123")]⟩,
        JsValue.null⟩
      ⟨JsValue.null, ⟨200, JsValue.obj []⟩, JsValue.obj [("alias", JsValue.str "abc-123")]⟩
      = IdentityProvider.find.handle
        ⟨JsValue.null, ⟨200, JsValue.obj []⟩, JsValue.obj [("alias", JsValue.str "abc-123")]⟩ :=
  ⟨(c1_create_resolves_with_readback ⟨"http://kc"⟩ ⟨"tok"⟩ "master"
      JsValue.null
      (JsValue.obj [("location",
        JsValue.str "http://kc/auth/admin/realms/master/components/abc-123")])
      JsValue.null
      "http://kc/auth/admin/realms/master/components/abc-123"
      rfl rfl).1.2
      ⟨JsValue.null, ⟨200, JsValue.obj []⟩, JsValue.obj [("id", JsValue.str "abc-123")]⟩,
   (c1_create_resolves_with_readback ⟨"http://kc"⟩ ⟨"tok"⟩ "master"
      JsValue.null
      (JsValue.obj [("location",
        JsValue.str "http://kc/auth/admin/realms/master/components/abc-123")])
      JsValue.null
      "http://kc/auth/admin/realms/master/components/abc-123"
      rfl rfl).2.2
      ⟨JsValue.null, ⟨200, JsValue.obj []⟩, JsValue.obj [("alias", JsValue.str "abc-123")]⟩⟩

/-- Claim C7: for both create operations, the first callback settles the
promise directly (as a rejection) on transport failure and on any
non-201 status, so the follow-up find is never issued there; and a
follow-up request arises only from a completed exchange with status
exactly 201 — at most one outbound request unless the POST succeeds. -/
theorem c7_single_request_unless_201 (client : ClientCtx)
    (priv : PrivateState) (realm : String) (e hdrs b : JsValue) (sc : Nat) :
    (truthy e = true →
      UserStorage.create.step client priv realm ⟨e, ⟨sc, hdrs⟩, b⟩
        = CreateStep.done (Outcome.rejected e)
      ∧ IdentityProvider.create.step client priv realm ⟨e, ⟨sc, hdrs⟩, b⟩
        = CreateStep.done (Outcome.rejected e))
    ∧ (truthy e = false → sc ≠ 201 →
      UserStorage.create.step client priv realm ⟨e, ⟨sc, hdrs⟩, b⟩
        = CreateStep.done (Outcome.rejected b)
      ∧ IdentityProvider.create.step client priv realm ⟨e, ⟨sc, hdrs⟩, b⟩
        = CreateStep.done (Outcome.rejected b))
    ∧ (∀ r, UserStorage.create.step client priv realm ⟨e, ⟨sc, hdrs⟩, b⟩
        = CreateStep.followUp r → truthy e = false ∧ sc = 201)
    ∧ (∀ r, IdentityProvider.create.step client priv realm ⟨e, ⟨sc, hdrs⟩, b⟩
        = CreateStep.followUp r → truthy e = false ∧ sc = 201) := by
  refine ⟨?_, ?_, ?_, ?_⟩
  · intro h
    exact ⟨by simp [UserStorage.create.step, h],
      by simp [IdentityProvider.create.step, h]⟩
  · intro h hsc
    exact ⟨by simp [UserStorage.create.step, h, hsc],
      by simp [IdentityProvider.create.step, h, hsc]⟩
  · intro r hr
    by_cases he : truthy e = true
    · simp [UserStorage.create.step, he] at hr
    · simp only [Bool.not_eq_true] at he
      by_cases hsc : sc = 201
      · exact ⟨he, hsc⟩
      · simp [UserStorage.create.step, he, hsc] at hr
  · intro r hr
    by_cases he : truthy e = true
    · simp [IdentityProvider.create.step, he] at hr
    · simp only [Bool.not_eq_true] at he
      by_cases hsc : sc = 201
      · exact ⟨he, hsc⟩
      · simp [IdentityProvider.create.step, he, hsc] at hr

/-- Witness for C7: a transport failure makes user-storage create settle
directly with the error, and a completed 500 response makes it settle
directly with the body — in neither case a follow-up request. -/
theorem c7_single_request_unless_201_witness :
    UserStorage.create.step ⟨"http://kc"⟩ ⟨"tok"⟩ "master"
      ⟨JsValue.str "ETIMEDOUT", ⟨0, JsValue.obj []⟩, JsValue.null⟩
      = CreateStep.done (Outcome.rejected (JsValue.str "ETIMEDOUT"))
    ∧ UserStorage.create.step ⟨"http://kc"⟩ ⟨"tok"⟩ "master"
      ⟨JsValue.null, ⟨500, JsValue.obj []⟩, JsValue.str "oops"⟩
      = CreateStep.done (Outcome.rejected (JsValue.str "oops")) :=
  ⟨((c7_single_request_unless_201 ⟨"http://kc"⟩ ⟨"tok"⟩ "master"
      (JsValue.str "ETIMEDOUT") (JsValue.obj []) JsValue.null 0).1 rfl).1,
   ((c7_single_request_unless_201 ⟨"http://kc"⟩ ⟨"tok"⟩ "master"
      JsValue.null (JsValue.obj []) (JsValue.str "oops") 500).2.1 rfl
      (by decide)).1⟩

/-- Claim C9: for both create operations, a 201 response without a
Location header makes the identifier extraction dereference an absent
value and throw a local TypeError — the promise is not rejected with
either specified error kind; the extraction is well-defined only when
the header is present, and on a header value containing no '/' the
extracted identifier is the entire header string. -/
theorem c9_missing_location_header_throws (client : ClientCtx)
    (priv : PrivateState) (realm : String) (e hdrs b : JsValue)
    (hErr : truthy e = false)
    (hLoc : getField hdrs "location" = JsValue.undef) :
    (UserStorage.create.step client priv realm ⟨e, ⟨201, hdrs⟩, b⟩
      = CreateStep.throwTypeError
     ∧ IdentityProvider.create.step client priv realm ⟨e, ⟨201, hdrs⟩, b⟩
      = CreateStep.throwTypeError)
    ∧ ∀ s : String, '/' ∉ s.data → lastSegment s = s := by
  refine ⟨⟨?_, ?_⟩, ?_⟩
  · simp [UserStorage.create.step, hErr, hLoc]
  · simp [IdentityProvider.create.step, hErr, hLoc]
  · intro s h
    unfold lastSegment
    rw [List.takeWhile_eq_self_iff.mpr, List.reverse_reverse]
    intro c hc
    simp only [List.mem_reverse] at hc
    simp only [bne_iff_ne, ne_eq]
    intro hcq
    exact h (hcq ▸ hc)

/-- Witness for C9: a 201 response whose headers object lacks a
`location` key makes user-storage create throw, and a slash-free header
value is extracted whole. -/
theorem c9_missing_location_header_throws_witness :
    UserStorage.create.step ⟨"http://kc"⟩ ⟨"tok"⟩ "master"
      ⟨JsValue.null, ⟨201, JsValue.obj []⟩, JsValue.null⟩
      = CreateStep.throwTypeError
    ∧ lastSegment "abc-123" = "abc-123" :=
  ⟨(c9_missing_location_header_throws ⟨"http://kc"⟩ ⟨"tok"⟩ "master"
      JsValue.null (JsValue.obj []) JsValue.null rfl rfl).1.1,
   (c9_missing_location_header_throws ⟨"http://kc"⟩ ⟨"tok"⟩ "master"
      JsValue.null (JsValue.obj []) JsValue.null rfl rfl).2 "abc-123"
      (by decide)⟩

/-- Claim C3: for both modules' find, a truthy `options.id`
(user-storage) resp. `options.alias` (identity-provider) selects the
single-resource URL with no query-string object attached (`qs := none`),
while a falsy one on a truthy options object selects the collection URL
with the options object attached verbatim as `qs`. -/
theorem c3_find_url_and_query_selection (client : ClientCtx)
    (priv : PrivateState) (realm : String) (options : JsValue) :
    (truthy (getField options "id") = true →
      UserStorage.find.request client priv realm options =
        { url := client.baseUrl ++ "/admin/realms/" ++ realm ++ "/components/"
            ++ jsToString (getField options "id")
          bearer := priv.accessToken
          json := true
          qs := none })
    ∧ (truthy options = true → truthy (getField options "id") = false →
      UserStorage.find.request client priv realm options =
        { url := client.baseUrl ++ "/admin/realms/" ++ realm
            ++ "/components?parent=" ++ realm
            ++ "&type=org.keycloak.storage.UserStorageProvider"
          bearer := priv.accessToken
          json := true
          qs := some options })
    ∧ (truthy (getField options "alias") = true →
      IdentityProvider.find.request client priv realm options =
        { url := client.baseUrl ++ "/admin/realms/" ++ realm
            ++ "/identity-provider/instances/"
            ++ jsToString (getField options "alias")
          bearer := priv.accessToken
          json := true
          qs := none })
    ∧ (truthy options = true → truthy (getField options "alias") = false →
      IdentityProvider.find.request client priv realm options =
        { url := client.baseUrl ++ "/admin/realms/" ++ realm
            ++ "/identity-provider/instances"
          bearer := priv.accessToken
          json := true
          qs := some options }) := by
  refine ⟨?_, ?_, ?_, ?_⟩
  · intro h
    have hOpts := truthy_of_getField options "id" h
    simp [UserStorage.find.request, hOpts, h]
  · intro hOpts h
    simp [UserStorage.find.request, hOpts, h]
  · intro h
    have hOpts := truthy_of_getField options "alias" h
    simp [IdentityProvider.find.request, hOpts, h]
  · intro hOpts h
    simp [IdentityProvider.find.request, hOpts, h]

/-- Witness for C3: with `id: "u1"` user-storage find targets the
single-component URL without a query string; with only `max: 5` it
targets the collection URL and attaches the options verbatim. -/
theorem c3_find_url_and_query_selection_witness :
    UserStorage.find.request ⟨"http://kc"⟩ ⟨"tok"⟩ "master"
      (JsValue.obj [("id", JsValue.str "u1")]) =
      { url := "http://kc" ++ "/admin/realms/" ++ "master" ++ "/components/"
          ++ jsToString (getField (JsValue.obj [("id", JsValue.str "u1")]) "id")
        bearer := "tok"
        json := true
        qs := none }
    ∧ UserStorage.find.request ⟨"http://kc"⟩ ⟨"tok"⟩ "master"
      (JsValue.obj [("max", JsValue.num 5)]) =
      { url := "http://kc" ++ "/admin/realms/" ++ "master"
          ++ "/components?parent=" ++ "master"
          ++ "&type=org.keycloak.storage.UserStorageProvider"
        bearer := "tok"
        json := true
        qs := some (JsValue.obj [("max", JsValue.num 5)]) }
    ∧ IdentityProvider.find.request ⟨"http://kc"⟩ ⟨"tok"⟩ "master"
      (JsValue.obj [("alias", JsValue.str "gh")]) =
      { url := "http://kc" ++ "/admin/realms/" ++ "master"
          ++ "/identity-provider/instances/"
          ++ jsToString (getField (JsValue.obj [("alias", JsValue.str "gh")]) "alias")
        bearer := "tok"
        json := true
        qs := none } :=
  ⟨(c3_find_url_and_query_selection ⟨"http://kc"⟩ ⟨"tok"⟩ "master"
      (JsValue.obj [("id", JsValue.str "u1")])).1 rfl,
   (c3_find_url_and_query_selection ⟨"http://kc"⟩ ⟨"tok"⟩ "master"
      (JsValue.obj [("max", JsValue.num 5)])).2.1 rfl rfl,
   (c3_find_url_and_query_selection ⟨"http://kc"⟩ ⟨"tok"⟩ "master"
      (JsValue.obj [("alias", JsValue.str "gh")])).2.2.1 rfl⟩

/-- Counterexample to claim C4 as stated: the user-storage remove
request descriptor does not set the json flag — the source object
literal (part_000 lines 181-187) has no `json` key, so the built request
has `json = false`, refuting "every operation ... including the remove
operations" builds its request with the json flag set. -/
theorem c4_counterexample :
    (UserStorage.remove.request ⟨"http://kc"⟩ ⟨"tok"⟩ "master" "comp-1").json
      = false := rfl

/-- Claim C4 as amended: every operation in all three modules builds its
request with the json flag set, except the two remove operations
(user-storage and identity-provider), whose request descriptors omit the
json flag entirely. -/
theorem c4_json_flag_on_all_but_remove (client : ClientCtx)
    (priv : PrivateState) (realm flow sid alias_ : String)
    (options entity : JsValue) :
    (UserStorage.find.request client priv realm options).json = true
    ∧ (UserStorage.create.request client priv realm entity).json = true
    ∧ (UserStorage.update.request client priv realm entity).json = true
    ∧ (UserStorage.remove.request client priv realm sid).json = false
    ∧ (UserStorage.triggerChangedUsersSync.request client priv realm sid).json = true
    ∧ (UserStorage.triggerFullSync.request client priv realm sid).json = true
    ∧ (UserStorage.removeImportedUsers.request client priv realm sid).json = true
    ∧ (UserStorage.unlinkImportedUsers.request client priv realm sid).json = true
    ∧ (IdentityProvider.find.request client priv realm options).json = true
    ∧ (IdentityProvider.create.request client priv realm entity).json = true
    ∧ (IdentityProvider.update.request client priv realm entity).json = true
    ∧ (IdentityProvider.remove.request client priv realm alias_).json = false
    ∧ (IdentityProvider.exportConfiguration.request client priv realm alias_).json = true
    ∧ (AuthenticationFlows.find.request client priv realm flow options).json = true
    ∧ (AuthenticationFlows.update.request client priv realm flow entity).json = true := by
  refine ⟨?_, ?_, ?_, ?_, ?_, ?_, ?_, ?_, ?_, ?_, ?_, ?_, ?_, ?_, ?_⟩ <;>
    first
      | rfl
      | (unfold UserStorage.find.request; dsimp only; split <;> split <;> rfl)
      | (unfold IdentityProvider.find.request; dsimp only; split <;> split <;> rfl)

/-- Claim C6: every operation's request carries as bearer credential
exactly the access token found in the private-map entry supplied at the
moment of the call (the source reads
`privates.get(client).accessToken` inside each per-call closure), so a
token rotated between two calls appears in the second call's header
because the second call is built from the rotated `priv`. -/
theorem c6_bearer_is_calltime_token (client : ClientCtx)
    (priv : PrivateState) (realm flow sid alias_ : String)
    (options entity : JsValue) :
    (UserStorage.find.request client priv realm options).bearer = priv.accessToken
    ∧ (UserStorage.create.request client priv realm entity).bearer = priv.accessToken
    ∧ (UserStorage.update.request client priv realm entity).bearer = priv.accessToken
    ∧ (UserStorage.remove.request client priv realm sid).bearer = priv.accessToken
    ∧ (UserStorage.triggerChangedUsersSync.request client priv realm sid).bearer
        = priv.accessToken
    ∧ (UserStorage.triggerFullSync.request client priv realm sid).bearer
        = priv.accessToken
    ∧ (UserStorage.removeImportedUsers.request client priv realm sid).bearer
        = priv.accessToken
    ∧ (UserStorage.unlinkImportedUsers.request client priv realm sid).bearer
        = priv.accessToken
    ∧ (IdentityProvider.find.request client priv realm options).bearer
        = priv.accessToken
    ∧ (IdentityProvider.create.request client priv realm entity).bearer
        = priv.accessToken
    ∧ (IdentityProvider.update.request client priv realm entity).bearer
        = priv.accessToken
    ∧ (IdentityProvider.remove.request client priv realm alias_).bearer
        = priv.accessToken
    ∧ (IdentityProvider.exportConfiguration.request client priv realm alias_).bearer
        = priv.accessToken
    ∧ (AuthenticationFlows.find.request client priv realm flow options).bearer
        = priv.accessToken
    ∧ (AuthenticationFlows.update.request client priv realm flow entity).bearer
        = priv.accessToken := by
  refine ⟨?_, ?_, ?_, ?_, ?_, ?_, ?_, ?_, ?_, ?_, ?_, ?_, ?_, ?_, ?_⟩ <;>
    first
      | rfl
      | (unfold UserStorage.find.request; dsimp only; split <;> split <;> rfl)
      | (unfold IdentityProvider.find.request; dsimp only; split <;> split <;> rfl)

/-- Claim C10: user-storage and identity-provider update perform no
local validation of the required identifier: a falsy entity argument is
replaced by the empty object (whose id/alias interpolates as
"undefined"); a truthy entity lacking its id resp. alias still gets its
PUT issued with the literal string "undefined" as the identifier path
segment; and the request builder is total — every call produces a PUT
request, never a local failure. -/
theorem c10_update_no_local_validation (client : ClientCtx)
    (priv : PrivateState) (realm : String) (entity : JsValue) :
    (truthy entity = false →
      UserStorage.update.request client priv realm entity =
        { url := client.baseUrl ++ "/admin/realms/" ++ realm ++ "/components/"
            ++ "undefined"
          bearer := priv.accessToken
          json := true
          method := "PUT"
          body := some (JsValue.obj []) }
      ∧ IdentityProvider.update.request client priv realm entity =
        { url := client.baseUrl ++ "/admin/realms/" ++ realm
            ++ "/identity-provider/instances/" ++ "undefined"
          bearer := priv.accessToken
          json := true
          method := "PUT"
          body := some (JsValue.obj []) })
    ∧ (truthy entity = true → getField entity "id" = JsValue.undef →
      UserStorage.update.request client priv realm entity =
        { url := client.baseUrl ++ "/admin/realms/" ++ realm ++ "/components/"
            ++ "undefined"
          bearer := priv.accessToken
          json := true
          method := "PUT"
          body := some entity })
    ∧ (truthy entity = true → getField entity "alias" = JsValue.undef →
      IdentityProvider.update.request client priv realm entity =
        { url := client.baseUrl ++ "/admin/realms/" ++ realm
            ++ "/identity-provider/instances/" ++ "undefined"
          bearer := priv.accessToken
          json := true
          method := "PUT"
          body := some entity })
    ∧ (UserStorage.update.request client priv realm entity).method = "PUT"
    ∧ (IdentityProvider.update.request client priv realm entity).method = "PUT" := by
  refine ⟨?_, ?_, ?_, ?_, ?_⟩
  · intro h
    constructor
    · simp [UserStorage.update.request, h, getField, jsToString_undef]
    · simp [IdentityProvider.update.request, h, getField, jsToString_undef]
  · intro h hid
    simp [UserStorage.update.request, h, hid, jsToString_undef]
  · intro h hal
    simp [IdentityProvider.update.request, h, hal, jsToString_undef]
  · rfl
  · rfl

/-- Witness for C10: an absent (undefined) entity still produces a PUT
to ".../components/undefined" with the empty object as body, and an
entity having only a name field (no id) is PUT to the same
"undefined"-segment URL unchanged. -/
theorem c10_update_no_local_validation_witness :
    UserStorage.update.request ⟨"http://kc"⟩ ⟨"tok"⟩ "master" JsValue.undef =
      { url := "http://kc" ++ "/admin/realms/" ++ "master" ++ "/components/"
          ++ "undefined"
        bearer := "tok"
        json := true
        method := "PUT"
        body := some (JsValue.obj []) }
    ∧ UserStorage.update.request ⟨"http://kc"⟩ ⟨"tok"⟩ "master"
      (JsValue.obj [("name", JsValue.str "ldap")]) =
      { url := "http://kc" ++ "/admin/realms/" ++ "master" ++ "/components/"
          ++ "undefined"
        bearer := "tok"
        json := true
        method := "PUT"
        body := some (JsValue.obj [("name", JsValue.str "ldap")]) } :=
  ⟨((c10_update_no_local_validation ⟨"http://kc"⟩ ⟨"tok"⟩ "master"
      JsValue.undef).1 rfl).1,
   (c10_update_no_local_validation ⟨"http://kc"⟩ ⟨"tok"⟩ "master"
      (JsValue.obj [("name", JsValue.str "ldap")])).2.1 rfl rfl⟩
